import Mathlib

/-!
Verification development for the ilaria-connect customer-support chat widget.

The repository's core logic is a client-side adapter (`ChatClient` in
`src/lib/chatClient.ts`): it builds chat request bodies, normalizes
heterogeneous backend success payloads into one `ChatResponse` shape, and
classifies HTTP / transport failures into a fixed vocabulary of error
categories.  Around it sit a minimal i18n module (`src/lib/lang.ts`) and the
`SupportChat` conversation view (session bootstrap, locale auto-switch).

This file gives a shallow embedding of that code.  JavaScript values that can
be `undefined` are modelled as `Option`; the JS `||` fallback operator on
strings is modelled with its truthiness semantics (both `undefined` and the
empty string are falsy); arrays are always truthy in JS, so `||` on arrays
only falls through on `undefined`.
-/

namespace IlariaConnect

/-- JS truthiness of a possibly-undefined string: `undefined` and `""` are
falsy, every other string is truthy. -/
def jsTruthy : Option String → Bool
  | none => false
  | some s => !(s == "")

/-- JS `a || b` on possibly-undefined strings: yields `a` when `a` is truthy,
else `b`. -/
def jsOrS (a b : Option String) : Option String :=
  if jsTruthy a then a else b

/-- JS `a || b` on possibly-undefined arrays: arrays (empty included) are
always truthy, so this only falls through on `undefined`. -/
def jsOrL (a b : Option (List String)) : Option (List String) :=
  if a.isSome then a else b

/-- JS `string.includes(pat)`: substring containment, case-sensitive. -/
def includes (s pat : String) : Bool :=
  decide (pat.toList <:+: s.toList)

/-! ## Data model (`src/lib/chatClient.ts`, `src/lib/lang.ts`) -/

/-- `type Locale = "it" | "en"` from `lang.ts`. -/
inductive Locale where
  | it
  | en
deriving DecidableEq, Repr

/-- `Message.role` values from the `Message` interface. -/
inductive Role where
  | user
  | assistant
  | system
deriving DecidableEq, Repr

/-- `interface Message {role; content; timestamp?}`. -/
structure Message where
  role : Role
  content : String
  timestamp : Option Nat := none
deriving DecidableEq, Repr

/-- `interface ChatRequest {message?; messages?; sessionId?; locale?}`. -/
structure ChatRequest where
  message : Option String := none
  messages : Option (List Message) := none
  sessionId : Option String := none
  locale : Option Locale := none
deriving DecidableEq, Repr

/-- `interface ChatResponse {reply; suggestions?; sessionId?; error?; code?}`. -/
structure ChatResponse where
  reply : String
  suggestions : Option (List String) := none
  sessionId : Option String := none
  error : Option String := none
  code : Option String := none
deriving DecidableEq, Repr

/-- The JSON body of a backend response, holding every field either adapter
path of `askBackend` / `handleErrorResponse` reads.  A missing field is
`none`. -/
structure JsonBody where
  reply : Option String := none
  message : Option String := none
  content : Option String := none
  suggestions : Option (List String) := none
  quick_replies : Option (List String) := none
  session_id : Option String := none
  sessionId : Option String := none
  code : Option String := none
  error_code : Option String := none
  error : Option String := none
deriving DecidableEq, Repr

/-- An HTTP response as the client sees it: a status code plus the result of
`response.json()` (`none` when the body is not parseable JSON). -/
structure HttpResponse where
  status : Nat
  body : Option JsonBody
deriving DecidableEq, Repr

/-- `response.ok` per the Fetch standard: status in the range 200–299. -/
def responseOk (r : HttpResponse) : Bool :=
  200 ≤ r.status && r.status < 300

/-- A value thrown by the transport layer: either a JS `Error` carrying a
message, or some non-`Error` value. -/
inductive JsThrown where
  | error (message : String)
  | other
deriving DecidableEq, Repr

/-- The outcome of a `fetch` call: an HTTP response, or a thrown transport
failure. -/
inductive FetchResult where
  | response (r : HttpResponse)
  | thrown (e : JsThrown)
deriving DecidableEq, Repr

/-! ## ChatClient (`src/lib/chatClient.ts`) -/

/-- The JSON body `askBackend` builds (lines 51–60): always carries
`session_id` and `locale` from the request; carries `messages` when the
request's list is present and non-empty, else `message` when the single
message is truthy. -/
structure ChatBody where
  session_id : Option String
  locale : Option Locale
  messages : Option (List Message) := none
  message : Option String := none
deriving DecidableEq, Repr

/-- Lines 51–60 of `chatClient.ts`:
`body = {session_id, locale}`; `if (request.messages && request.messages.length > 0)
body.messages = request.messages; else if (request.message) body.message = request.message`. -/
def buildChatBody (request : ChatRequest) : ChatBody :=
  let base : ChatBody := { session_id := request.sessionId, locale := request.locale }
  let hasMessages : Bool :=
    match request.messages with
    | some ms => ms.length > 0
    | none => false
  if hasMessages then
    { base with messages := request.messages }
  else if jsTruthy request.message then
    { base with message := request.message }
  else
    base

/-- The `switch (code)` category mapping of `handleErrorResponse` (lines
156–180): exact code match first, else status fallback, else the raw
message. -/
def categorize (status : Nat) (code rawMessage : String) : String :=
  if code == "quota_exceeded" || code == "rate_limit" then "quota_exceeded"
  else if code == "billing_not_active" || code == "payment_required" then "billing_not_active"
  else if code == "invalid_api_key" || code == "unauthorized" then "invalid_api_key"
  else if code == "timeout" then "timeout"
  else if status ≥ 500 then "server_error"
  else if status == 401 || status == 403 then "invalid_api_key"
  else if status == 429 then "quota_exceeded"
  else rawMessage

/-- `handleErrorResponse` (lines 143–183): parse the error body (an
unparseable body acts as `{}`), extract a code and raw message via JS `||`
chains, then map to a category with `categorize`. -/
def handleErrorResponse (response : HttpResponse) : ChatResponse :=
  let errorData : JsonBody := response.body.getD {}
  let code : String :=
    (jsOrS (jsOrS errorData.code errorData.error_code)
      (some ("http_" ++ toString response.status))).getD ""
  let rawMessage : String :=
    (jsOrS (jsOrS errorData.error errorData.message)
      (some ("HTTP " ++ toString response.status))).getD ""
  { reply := "", error := some (categorize response.status code rawMessage), code := some code }

/-- Line 191 of `chatClient.ts`: the textual description used by the network
classifier — `error instanceof Error ? error.message : "Unknown error"`. -/
def thrownMessage : JsThrown → String
  | .error m => m
  | .other => "Unknown error"

/-- `handleNetworkError` (lines 188–198): `network_error` when the message
contains `"fetch"` or `"network"`, else `unknown_error`. -/
def handleNetworkError (e : JsThrown) : ChatResponse :=
  let message := thrownMessage e
  if includes message "fetch" || includes message "network" then
    { reply := "", error := some "network_error" }
  else
    { reply := "", error := some "unknown_error" }

/-- The success-path normalization of `askBackend` (lines 77–81): field
fallbacks `reply || message || content || ""`,
`suggestions || quick_replies || []`,
`session_id || sessionId || request.sessionId`. -/
def adaptSuccess (request : ChatRequest) (data : JsonBody) : ChatResponse :=
  { reply := (jsOrS (jsOrS data.reply data.message) data.content).getD ""
    suggestions := some ((jsOrL data.suggestions data.quick_replies).getD [])
    sessionId := jsOrS (jsOrS data.session_id data.sessionId) request.sessionId }

/-- `askBackend` (lines 46–85) as a function of the request and the fetch
outcome: non-2xx responses go to `handleErrorResponse`, thrown transport
failures to `handleNetworkError`, 2xx responses are normalized by the
success adapter.  A 2xx response whose body is not parseable JSON makes
`response.json()` throw inside the `try`, landing in `handleNetworkError`;
the JSON parse error's message contains neither `"fetch"` nor `"network"`,
which we model with the non-`Error`-shaped thrown value (both classify to
`unknown_error` with empty reply). -/
def askBackend (request : ChatRequest) (result : FetchResult) : ChatResponse :=
  match result with
  | .thrown e => handleNetworkError e
  | .response r =>
    if !responseOk r then
      handleErrorResponse r
    else
      match r.body with
      | some data => adaptSuccess request data
      | none => handleNetworkError .other

/-- The result shape of `escalate`: `{success: boolean; error?: string}`. -/
structure EscalateResult where
  success : Bool
  error : Option String := none
deriving DecidableEq, Repr

/-- `escalate` (lines 90–116): success exactly on a 2xx response; on a
non-2xx response only the classifier's `error` field is kept; thrown
transport failures keep only the network classifier's `error` field. -/
def escalate (result : FetchResult) : EscalateResult :=
  match result with
  | .thrown e => { success := false, error := (handleNetworkError e).error }
  | .response r =>
    if !responseOk r then
      { success := false, error := (handleErrorResponse r).error }
    else
      { success := true }

/-- The result shape of `checkHealth`: `{ok: boolean; error?: string}`. -/
structure HealthResult where
  ok : Bool
  error : Option String := none
deriving DecidableEq, Repr

/-- `checkHealth` (lines 121–138): `ok = response.ok`; on non-2xx the error
is the literal `"HTTP {status}"` string; on a thrown failure the error is
the `Error`'s message, or the literal `"Network error"` for non-`Error`
values. -/
def checkHealth (result : FetchResult) : HealthResult :=
  match result with
  | .thrown e =>
    { ok := false
      error := some (match e with
        | .error m => m
        | .other => "Network error") }
  | .response r =>
    { ok := responseOk r
      error := if responseOk r then none else some ("HTTP " ++ toString r.status) }

/-! ## i18n (`src/lib/lang.ts`)

The translation table is a JS object whose values are strings, except
`quickReplies`, whose value is an array of strings.  The lookup `t` walks a
dotted key path with optional chaining (`value?.[k]`) and falls back to the
key itself when the result is falsy.  We model JS values reachable by that
walk with `JsVal`; JS built-in properties of strings and arrays (character
indexing, `length`) are not modelled — the table walk only uses object keys
and canonical array indices. -/

/-- A JS value reachable while resolving a key path through the translation
table: `undefined`, a string, an array of strings, or an object. -/
inductive JsVal where
  | undef
  | str (s : String)
  | arr (xs : List String)
  | obj (fields : List (String × JsVal))

/-- Whether a JS value is a string. -/
def JsVal.isStr : JsVal → Bool
  | .str _ => true
  | _ => false

/-- The `it` translation table from `lang.ts`. -/
def itTable : List (String × JsVal) := [
  ("agentName", .str "Ilaria"),
  ("agentRole", .str "Assistente Compliance"),
  ("online", .str "Online"),
  ("slaInfo", .str "Rispondo in pochi secondi"),
  ("escalate", .str "Parla con un umano"),
  ("greeting", .str "Ciao! Sono Ilaria, la tua assistente per la compliance aziendale. Come posso aiutarti oggi?"),
  ("quickReplies", .arr ["Devo aprire una nuova attività", "Verifica obblighi", "Parla in English"]),
  ("placeholder", .str "Scrivi un messaggio..."),
  ("sending", .str "Invio..."),
  ("escalateTitle", .str "Vuoi parlare con un collega?"),
  ("escalateMessage", .str "Ti metto in contatto con un esperto umano. Va bene?"),
  ("escalateConfirm", .str "Sì, grazie"),
  ("escalateCancel", .str "No, continua tu"),
  ("escalated", .str "Perfetto! Ti metto in contatto con un collega umano. Resta in linea."),
  ("errorTitle", .str "Ops, c'è un problema"),
  ("errorNetwork", .str "Non riesco a contattare il server. Verifica la connessione."),
  ("errorTimeout", .str "Il server ci sta mettendo troppo. Riprova tra poco."),
  ("errorQuota", .str "Hai raggiunto il limite di richieste. Riprova più tardi."),
  ("errorBilling", .str "Il servizio non è attivo. Contatta l'amministratore."),
  ("errorUnknown", .str "Qualcosa è andato storto. Riprova."),
  ("retry", .str "Riprova"),
  ("healthCheck", .str "Verifica server"),
  ("healthOk", .str "Server OK"),
  ("healthFail", .str "Server non raggiungibile")]

/-- The `en` translation table from `lang.ts`. -/
def enTable : List (String × JsVal) := [
  ("agentName", .str "Ilaria"),
  ("agentRole", .str "Compliance Assistant"),
  ("online", .str "Online"),
  ("slaInfo", .str "I respond in seconds"),
  ("escalate", .str "Talk to a human"),
  ("greeting", .str "Hi! I'm Ilaria, your business compliance assistant. How can I help you today?"),
  ("quickReplies", .arr ["Start a new business", "Check obligations", "Parla in Italiano"]),
  ("placeholder", .str "Type a message..."),
  ("sending", .str "Sending..."),
  ("escalateTitle", .str "Want to talk to a colleague?"),
  ("escalateMessage", .str "I'll connect you with a human expert. Sound good?"),
  ("escalateConfirm", .str "Yes, please"),
  ("escalateCancel", .str "No, continue"),
  ("escalated", .str "Perfect! I'm connecting you with a human colleague. Stand by."),
  ("errorTitle", .str "Oops, there's a problem"),
  ("errorNetwork", .str "Can't reach the server. Check your connection."),
  ("errorTimeout", .str "The server is taking too long. Try again in a moment."),
  ("errorQuota", .str "You've reached the request limit. Try again later."),
  ("errorBilling", .str "The service is not active. Contact the administrator."),
  ("errorUnknown", .str "Something went wrong. Please try again."),
  ("retry", .str "Retry"),
  ("healthCheck", .str "Check server"),
  ("healthOk", .str "Server OK"),
  ("healthFail", .str "Server unreachable")]

/-- `translations[locale]` from `lang.ts`. -/
def translations : Locale → List (String × JsVal)
  | .it => itTable
  | .en => enTable

/-- One step of the loop `value = value?.[k]`: object-key lookup; on an array
a canonical numeric index selects an element; everything else (a key missing
from an object, any key on a string, any key on `undefined`, a non-canonical
key on an array) yields `undefined`. -/
def access (value : JsVal) (k : String) : JsVal :=
  match value with
  | .obj fields => (fields.lookup k).getD .undef
  | .arr xs =>
    match k.toNat? with
    | some i =>
      if toString i == k then
        match xs.get? i with
        | some s => JsVal.str s
        | none => JsVal.undef
      else JsVal.undef
    | none => JsVal.undef
  | .str _ => JsVal.undef
  | .undef => JsVal.undef

/-- JS `value || key` on the walk's result: `undefined` and the empty string
are falsy; every other string, and every array, is truthy. -/
def jsOrVal (value fallback : JsVal) : JsVal :=
  match value with
  | .undef => fallback
  | .str s => if s == "" then fallback else JsVal.str s
  | .arr xs => JsVal.arr xs
  | .obj fields => JsVal.obj fields

/-- `key.split(".")`: JS split on the one-character separator, modelled by
splitting the character list on `'.'` (consecutive separators yield empty
segments and the empty key yields `[""]`, as in JS). -/
def splitKey (key : String) : List String :=
  (key.toList.splitOnP (fun c => c == '.')).map String.mk

/-- `t(locale, key)` from `lang.ts` (lines 103–112): split the key on `"."`,
walk the table with `value?.[k]`, return `value || key`. -/
def t (locale : Locale) (key : String) : JsVal :=
  let keys := splitKey key
  let value := keys.foldl access (JsVal.obj (translations locale))
  jsOrVal value (JsVal.str key)

/-! ## Conversation view (`SupportChat.tsx`) -/

/-- JS `\w`: ASCII letters, digits, underscore. -/
def isWordChar (c : Char) : Bool :=
  c.isAlpha || c.isDigit || c == '_'

/-- The maximal runs of word characters of a string — the candidate words a
`\b…\b`-delimited regex alternative can match. -/
def wordsOf (s : String) : List String :=
  ((s.toList.splitOnP (fun c => !isWordChar c)).map (fun l => String.mk l)).filter
    (fun w => w != "")

/-- `content.toLowerCase()`, modelled with ASCII lowercasing (the keyword
alternatives the view tests for are all ASCII). -/
def toLowerCase (s : String) : String :=
  String.mk (s.data.map Char.toLower)

/-- `/\b(english|inglese|engl\w*)\b/i.test(content)` on the already
lowercased content: the `\b` anchors force each alternative to span a whole
maximal run of word characters from its start; `engl\w*` must then extend to
the run's end, so it matches exactly the words starting with `"engl"`
(subsuming the `english` alternative), and `inglese` matches exactly the
word `"inglese"`. -/
def hasEnglishKeyword (content : String) : Bool :=
  (wordsOf content).any (fun w => "engl".toList.isPrefixOf w.toList || w == "inglese")

/-- `/\b(italian|italiano|ital\w*)\b/i.test(content)` on the already
lowercased content: `ital\w*` matches exactly the words starting with
`"ital"`, subsuming both other alternatives. -/
def hasItalianKeyword (content : String) : Bool :=
  (wordsOf content).any (fun w => "ital".toList.isPrefixOf w.toList)

/-- The locale-switch effect of `SupportChat` (lines 183–193): look at the
last message; when it is a user message, lowercase its content and test the
English pattern, then the Italian pattern, flipping the locale accordingly;
otherwise leave the locale alone. -/
def localeAfterMessages (locale : Locale) (messages : List Message) : Locale :=
  match messages.getLast? with
  | none => locale
  | some lastMessage =>
    if lastMessage.role == Role.user then
      let content := toLowerCase lastMessage.content
      if hasEnglishKeyword content then Locale.en
      else if hasItalianKeyword content then Locale.it
      else locale
    else locale

/-- `{session_id, reply}` as returned by the session-start endpoint
(`endpoints.ts`: `start: "/api/chat/start"  // POST -> {session_id, reply}`). -/
structure StartResult where
  session_id : String
  reply : String
deriving DecidableEq, Repr

/-- Modelled from the spec: `chatClient.start()` is invoked by `SupportChat`
but the `start` method itself is missing from the source files (the
`ChatClient` class defines only `askBackend`, `escalate`, `checkHealth` and
the two classifiers).  Per spec §4.2, `startSession` "issues a session-start
request with no prior session id" and returns "a fresh identifier plus an
initial greeting": we model it as returning the backend-chosen
`StartResult`, taking no session-id argument. -/
def start (backend : StartResult) : StartResult := backend

/-- `const SID_KEY = "chat_session_id"` — the fixed client-storage key. -/
def SID_KEY : String := "chat_session_id"

/-- `localStorage.getItem(k)` over a key-value store (`null` ↦ `none`). -/
def getItem (storage : List (String × String)) (k : String) : Option String :=
  storage.lookup k

/-- `localStorage.setItem(k, v)`. -/
def setItem (storage : List (String × String)) (k v : String) : List (String × String) :=
  (k, v) :: storage.filter (fun p => p.1 != k)

/-- JS `content.trim()`: strip leading and trailing whitespace, modelled
over the character list. -/
def jsTrim (s : String) : String :=
  String.mk (((s.data.dropWhile Char.isWhitespace).reverse.dropWhile Char.isWhitespace).reverse)

/-- The view state relevant to session handling: the client-local storage,
the `sessionId` React state, the message list and the active locale. -/
structure ViewState where
  localStorage : List (String × String)
  sessionId : Option String := none
  messages : List Message := []
  locale : Locale := Locale.en
deriving DecidableEq, Repr

/-- Result of the bootstrap effect: whether `chatClient.start` was invoked,
and the updated view state. -/
structure BootOutcome where
  startCalled : Bool
  state : ViewState
deriving DecidableEq, Repr

/-- `ensureSidAndGreeting` (`SupportChat.tsx` lines 149–175): reuse the
stored session id when truthy; otherwise invoke `start`, store the fresh id
under `SID_KEY`, and append the greeting reply when truthy; finally set the
`sessionId` state to the resolved id. -/
def ensureSidAndGreeting (st : ViewState) (backend : StartResult) (now : Nat) : BootOutcome :=
  let sid := getItem st.localStorage SID_KEY
  if jsTruthy sid then
    { startCalled := false, state := { st with sessionId := sid } }
  else
    let res := start backend
    let storage1 := setItem st.localStorage SID_KEY res.session_id
    let messages1 :=
      if res.reply != "" then
        st.messages ++ [{ role := Role.assistant, content := res.reply, timestamp := some now }]
      else st.messages
    { startCalled := true
      state := { st with localStorage := storage1, messages := messages1,
                         sessionId := some res.session_id } }

/-- Result of a `sendMessage` call up to the point where the chat request is
handed to `chatClient.askBackend`: whether `start` was invoked, the issued
`ChatRequest` (`none` when the blank-content guard returned early), and the
view state at that point. -/
structure SendOutcome where
  startCalled : Bool
  request : Option ChatRequest
  state : ViewState
deriving DecidableEq, Repr

/-- `sendMessage` (`SupportChat.tsx` lines 195–230), up to the
`chatClient.askBackend` call: return early on blank content; resolve the
session id as `sessionId || localStorage.getItem(SID_KEY)`; when falsy,
invoke `start`, store and adopt the fresh id, appending the greeting when
truthy; append the user message and issue the chat request with the resolved
id and the active locale. -/
def sendMessage (st : ViewState) (backend : StartResult) (content : String) (now : Nat) :
    SendOutcome :=
  if jsTrim content == "" then
    { startCalled := false, request := none, state := st }
  else
    let sid0 := jsOrS st.sessionId (getItem st.localStorage SID_KEY)
    let userMessage : Message :=
      { role := Role.user, content := jsTrim content, timestamp := some now }
    if jsTruthy sid0 then
      { startCalled := false
        request := some { message := some (jsTrim content), sessionId := sid0,
                          locale := some st.locale }
        state := { st with messages := st.messages ++ [userMessage] } }
    else
      let res := start backend
      let storage1 := setItem st.localStorage SID_KEY res.session_id
      let messages1 :=
        if res.reply != "" then
          st.messages ++ [{ role := Role.assistant, content := res.reply, timestamp := some now }]
        else st.messages
      { startCalled := true
        request := some { message := some (jsTrim content), sessionId := some res.session_id,
                          locale := some st.locale }
        state := { st with localStorage := storage1, sessionId := some res.session_id,
                           messages := messages1 ++ [userMessage] } }

/-! ## Claim-side definitions

For the refinement claims C1–C3, the spec describes the field fallbacks in
presence terms ("try field A, else B, else C").  The following definitions
follow the claims' words; the theorems compare them with the definitions
translated from the source above. -/

/-- First-present fallback on possibly-absent values, as the claims word the
field fallbacks. -/
def firstPresent {α : Type} (a b : Option α) : Option α :=
  match a with
  | some x => some x
  | none => b

/-- The error classifier as claim C1 words it: the code is the body's
`"code"` field, else its `"error_code"` field, else the synthesized
`"http_{status}"`; the raw message is the body's `"error"` field, else
`"message"`, else `"HTTP {status}"`; the category comes from the same
exact-code-then-status table; the reply is empty. -/
def claimedErrorResponse (status : Nat) (body : Option JsonBody) : ChatResponse :=
  let errorData : JsonBody := body.getD {}
  let code : String :=
    (firstPresent errorData.code errorData.error_code).getD ("http_" ++ toString status)
  let rawMessage : String :=
    (firstPresent errorData.error errorData.message).getD ("HTTP " ++ toString status)
  { reply := "", error := some (categorize status code rawMessage), code := some code }

/-- The 2xx normalization as claim C2 words it: reply is the first of the
body fields `"reply"`, `"message"`, `"content"`, else empty; suggestions is
the body's `"suggestions"`, else `"quick_replies"`, else the empty list;
sessionId is the body's `"session_id"`, else `"sessionId"`, else the
request's; the error field is absent. -/
def claimedSuccessResponse (request : ChatRequest) (data : JsonBody) : ChatResponse :=
  { reply := (firstPresent (firstPresent data.reply data.message) data.content).getD ""
    suggestions := some ((firstPresent data.suggestions data.quick_replies).getD [])
    sessionId := firstPresent (firstPresent data.session_id data.sessionId) request.sessionId }

/-- The outgoing chat body as claim C3 words it: carries `messages` (and not
`message`) whenever the request's list is present and non-empty; carries
`message` when the list is absent or empty and a single message is present;
always includes `session_id` and `locale` from the request. -/
def claimedChatBody (request : ChatRequest) : ChatBody :=
  let listPresent : Bool :=
    match request.messages with
    | some ms => ms.length > 0
    | none => false
  { session_id := request.sessionId
    locale := request.locale
    messages := if listPresent then request.messages else none
    message := if listPresent then none else request.message }

/-! ## Bridge lemmas between JS truthiness and presence -/

/-- When a possibly-undefined string is not the (falsy) empty string, the JS
`||` fallback agrees with the presence-based fallback. -/
theorem jsOrS_eq_firstPresent (a b : Option String) (h : a ≠ some "") :
    jsOrS a b = firstPresent a b := by
  cases a with
  | none => rfl
  | some s =>
    have hs : ¬(s = "") := fun hs => h (by rw [hs])
    simp [jsOrS, jsTruthy, firstPresent, hs]

/-- Presence-based fallback of two non-empty-string options is not the empty
string. -/
theorem firstPresent_ne_empty (a b : Option String) (ha : a ≠ some "") (hb : b ≠ some "") :
    firstPresent a b ≠ some "" := by
  cases a with
  | none => exact hb
  | some s => exact ha

/-- A string starting with a non-empty string is non-empty. -/
theorem append_ne_empty_left (s u : String) (h : s ≠ "") : s ++ u ≠ "" := by
  intro he
  have hd := congrArg String.data he
  rw [String.data_append] at hd
  exact h (String.ext (List.append_eq_nil.mp hd).1)

/-- JS `a || b` with a non-empty-string default `b`, then defaulting the
result to `""`, is the same as presence-defaulting `a` to `b`. -/
theorem jsOrS_getD_default (a : Option String) (s : String) (ha : a ≠ some "") :
    (jsOrS a (some s)).getD "" = a.getD s := by
  cases a with
  | none => rfl
  | some x =>
    have hx : ¬(x = "") := fun hx => ha (by rw [hx])
    simp [jsOrS, jsTruthy, hx]

/-- JS `||` on arrays coincides with the presence-based fallback: arrays are
always truthy. -/
theorem jsOrL_eq_firstPresent (a b : Option (List String)) :
    jsOrL a b = firstPresent a b := by
  cases a <;> rfl

/-- Defaulting the table walk's result to the key never yields `undefined`. -/
theorem jsOrVal_ne_undef (v : JsVal) (k : String) :
    jsOrVal v (JsVal.str k) ≠ JsVal.undef := by
  cases v with
  | str s => by_cases h : (s == "") = true <;> simp [jsOrVal, h]
  | undef => simp [jsOrVal]
  | arr xs => simp [jsOrVal]
  | obj fields => simp [jsOrVal]

/-- A `sendMessage` whose state resolves a truthy session id issues the chat
request with that id and does not invoke `start`. -/
theorem sendMessage_with_sid (st : ViewState) (b : StartResult) (c : String) (n : Nat)
    (s : String) (hc : jsTrim c ≠ "")
    (hsid : jsOrS st.sessionId (getItem st.localStorage SID_KEY) = some s) (hs : s ≠ "") :
    (sendMessage st b c n).startCalled = false ∧
    (sendMessage st b c n).request =
      some { message := some (jsTrim c), sessionId := some s, locale := some st.locale } := by
  have htr : jsTruthy (jsOrS st.sessionId (getItem st.localStorage SID_KEY)) = true := by
    rw [hsid]; simp [jsTruthy, hs]
  constructor <;> simp [sendMessage, hc, htr, hsid, jsTruthy, hs]

/-! ## The claims -/

/-- Claim C1: for every failed (non-2xx) HTTP response, the error classifier
extracts a code as the body's `"code"` field, else `"error_code"`, else the
synthesized `"http_{status}"`, and picks the category by exact code match
first, else by status fallback (≥ 500 → `server_error`; 401/403 →
`invalid_api_key`; 429 → `quota_exceeded`; otherwise the raw message from
body `"error"` or `"message"`, defaulting to `"HTTP {status}"`, is kept).
In particular HTTP 429 with body `{error_code:"rate_limit"}` yields
`{reply:"", error:"quota_exceeded", code:"rate_limit"}`, and HTTP 500 with
no parseable body yields category `server_error`.  The presence-based
reading of the fallback chains agrees with the code's JS truthiness under
the hypothesis that no present field is the empty string. -/
theorem claim_C1_error_classifier (r : HttpResponse)
    (h1 : (r.body.getD {}).code ≠ some "")
    (h2 : (r.body.getD {}).error_code ≠ some "")
    (h3 : (r.body.getD {}).error ≠ some "")
    (h4 : (r.body.getD {}).message ≠ some "") :
    handleErrorResponse r = claimedErrorResponse r.status r.body ∧
    handleErrorResponse { status := 429, body := some { error_code := some "rate_limit" } } =
      { reply := "", error := some "quota_exceeded", code := some "rate_limit" } ∧
    (handleErrorResponse { status := 500, body := none }).error = some "server_error" := by
  refine ⟨?_, by decide, by decide⟩
  have hc : (jsOrS (jsOrS (r.body.getD {}).code (r.body.getD {}).error_code)
      (some ("http_" ++ toString r.status))).getD "" =
      (firstPresent (r.body.getD {}).code (r.body.getD {}).error_code).getD
        ("http_" ++ toString r.status) := by
    rw [jsOrS_eq_firstPresent _ _ h1]
    exact jsOrS_getD_default _ _ (firstPresent_ne_empty _ _ h1 h2)
  have hr : (jsOrS (jsOrS (r.body.getD {}).error (r.body.getD {}).message)
      (some ("HTTP " ++ toString r.status))).getD "" =
      (firstPresent (r.body.getD {}).error (r.body.getD {}).message).getD
        ("HTTP " ++ toString r.status) := by
    rw [jsOrS_eq_firstPresent _ _ h3]
    exact jsOrS_getD_default _ _ (firstPresent_ne_empty _ _ h3 h4)
  simp only [handleErrorResponse, claimedErrorResponse, hc, hr]

/-- Witness for C1 at a concrete failed response. -/
theorem claim_C1_witness :
    handleErrorResponse { status := 418, body := some { code := some "rate_limit" } } =
      claimedErrorResponse 418 (some { code := some "rate_limit" }) :=
  (claim_C1_error_classifier { status := 418, body := some { code := some "rate_limit" } }
    (by decide) (by decide) (by decide) (by decide)).1

/-- Claim C2: for every 2xx response to `askBackend` with a JSON body, the
returned `ChatResponse` is the claimed normalization — reply is the first of
the body fields `"reply"`, `"message"`, `"content"` (else empty);
suggestions is `"suggestions"`, else `"quick_replies"`, else the empty list;
sessionId is `"session_id"`, else `"sessionId"`, else the request's — and
the error field is absent.  Presence-based reading of the string fallbacks
assumes no present string field is empty. -/
theorem claim_C2_success_adapter (request : ChatRequest) (r : HttpResponse) (data : JsonBody)
    (hok : responseOk r = true) (hbody : r.body = some data)
    (h1 : data.reply ≠ some "") (h2 : data.message ≠ some "")
    (h4 : data.session_id ≠ some "") (h5 : data.sessionId ≠ some "") :
    askBackend request (FetchResult.response r) = claimedSuccessResponse request data ∧
    (askBackend request (FetchResult.response r)).error = none := by
  have hmain : askBackend request (FetchResult.response r) =
      claimedSuccessResponse request data := by
    simp only [askBackend, hok, hbody, Bool.not_true, Bool.false_eq_true, if_false]
    simp only [adaptSuccess, claimedSuccessResponse]
    rw [jsOrS_eq_firstPresent _ _ h1,
        jsOrS_eq_firstPresent _ _ (firstPresent_ne_empty _ _ h1 h2),
        jsOrS_eq_firstPresent _ _ h4,
        jsOrS_eq_firstPresent _ _ (firstPresent_ne_empty _ _ h4 h5),
        jsOrL_eq_firstPresent]
  exact ⟨hmain, by rw [hmain]; rfl⟩

/-- Witness for C2: a 2xx body carrying both `reply` and `message` (reply
wins) and `quick_replies` without `suggestions`. -/
theorem claim_C2_witness :
    askBackend { sessionId := some "sess-1" }
      (FetchResult.response
        { status := 200
          body := some { reply := some "Hello"
                         message := some "ignored"
                         quick_replies := some ["More info"] } }) =
      claimedSuccessResponse { sessionId := some "sess-1" }
        { reply := some "Hello"
          message := some "ignored"
          quick_replies := some ["More info"] } :=
  (claim_C2_success_adapter { sessionId := some "sess-1" }
    { status := 200
      body := some { reply := some "Hello"
                     message := some "ignored"
                     quick_replies := some ["More info"] } }
    { reply := some "Hello"
      message := some "ignored"
      quick_replies := some ["More info"] }
    (by decide) rfl (by decide) (by decide) (by decide) (by decide)).1

/-- Claim C3: the JSON body built by `askBackend` carries `messages` (and
not `message`) whenever the request's list is present and non-empty, even
if a single message is also set; carries `message` when the list is absent
or empty and a single message is present; and always includes `session_id`
and `locale` from the request.  Presence of the single message is read
under the hypothesis that it is not the (falsy) empty string. -/
theorem claim_C3_request_body (request : ChatRequest) (h : request.message ≠ some "") :
    buildChatBody request = claimedChatBody request ∧
    (buildChatBody request).session_id = request.sessionId ∧
    (buildChatBody request).locale = request.locale := by
  have hmain : buildChatBody request = claimedChatBody request := by
    simp only [buildChatBody, claimedChatBody]
    cases hm : request.messages with
    | none =>
      simp only
      cases hmsg : request.message with
      | none => rfl
      | some s =>
        have hs : ¬(s = "") := fun hs => h (by rw [hmsg, hs])
        simp [jsTruthy, hs]
    | some ms =>
      by_cases hlen : ms.length > 0
      · simp [hlen]
      · simp only [hlen, if_false]
        cases hmsg : request.message with
        | none => simp [hlen]
        | some s =>
          have hs : ¬(s = "") := fun hs => h (by rw [hmsg, hs])
          simp [jsTruthy, hs, hlen]
  exact ⟨hmain, by rw [hmain]; simp [claimedChatBody], by rw [hmain]; simp [claimedChatBody]⟩

/-- Witness for C3: a request with both a non-empty list and a single
message set. -/
theorem claim_C3_witness :
    buildChatBody { message := some "hi"
                    messages := some [{ role := Role.user, content := "hi" }]
                    sessionId := some "sess-1"
                    locale := some Locale.en } =
      claimedChatBody { message := some "hi"
                        messages := some [{ role := Role.user, content := "hi" }]
                        sessionId := some "sess-1"
                        locale := some Locale.en } :=
  (claim_C3_request_body { message := some "hi"
                           messages := some [{ role := Role.user, content := "hi" }]
                           sessionId := some "sess-1"
                           locale := some Locale.en } (by decide)).1

/-- Claim C4: every `ChatResponse` produced by the chat client — the success
path of `askBackend`, the HTTP-error classifier, and the network-error
classifier — satisfies the exclusive-channel invariant: either the error
field is absent, or it is present and the reply is the empty string. -/
theorem claim_C4_exclusive_channels (request : ChatRequest) (result : FetchResult)
    (r : HttpResponse) (e : JsThrown) :
    ((askBackend request result).error = none ∨
      ((askBackend request result).error ≠ none ∧ (askBackend request result).reply = "")) ∧
    ((handleErrorResponse r).error ≠ none ∧ (handleErrorResponse r).reply = "") ∧
    ((handleNetworkError e).error ≠ none ∧ (handleNetworkError e).reply = "") := by
  have herr : ∀ r' : HttpResponse,
      (handleErrorResponse r').error ≠ none ∧ (handleErrorResponse r').reply = "" := by
    intro r'
    exact ⟨by simp [handleErrorResponse], rfl⟩
  have hnet : ∀ e' : JsThrown,
      (handleNetworkError e').error ≠ none ∧ (handleNetworkError e').reply = "" := by
    intro e'
    cases hb : includes (thrownMessage e') "fetch" || includes (thrownMessage e') "network" <;>
      simp [handleNetworkError, hb]
  refine ⟨?_, herr r, hnet e⟩
  cases result with
  | thrown e' => exact Or.inr (hnet e')
  | response r' =>
    by_cases hok : responseOk r'
    · cases hbody : r'.body with
      | some data => left; simp [askBackend, hok, hbody, adaptSuccess]
      | none => right; simpa [askBackend, hok, hbody] using hnet .other
    · right
      have hform : askBackend request (FetchResult.response r') = handleErrorResponse r' := by
        simp [askBackend, hok]
      rw [hform]
      exact herr r'

/-- Claim C5: the network-error classifier returns
`{reply:"", error:"network_error"}` exactly when the failure's textual
description contains the substring `"fetch"` or `"network"`
(case-sensitive), and `{reply:"", error:"unknown_error"}` otherwise; in
particular a thrown `Error` with message `"Failed to fetch"` classifies as
`network_error`. -/
theorem claim_C5_network_classifier (e : JsThrown) :
    (handleNetworkError e = { reply := "", error := some "network_error" } ↔
      ("fetch".toList <:+: (thrownMessage e).toList ∨
        "network".toList <:+: (thrownMessage e).toList)) ∧
    (¬ ("fetch".toList <:+: (thrownMessage e).toList ∨
        "network".toList <:+: (thrownMessage e).toList) →
      handleNetworkError e = { reply := "", error := some "unknown_error" }) ∧
    handleNetworkError (JsThrown.error "Failed to fetch") =
      { reply := "", error := some "network_error" } := by
  have hcond :
      (includes (thrownMessage e) "fetch" || includes (thrownMessage e) "network") = true ↔
      ("fetch".toList <:+: (thrownMessage e).toList ∨
        "network".toList <:+: (thrownMessage e).toList) := by
    simp [includes]
  have htrue :
      (includes (thrownMessage e) "fetch" || includes (thrownMessage e) "network") = true →
      handleNetworkError e = { reply := "", error := some "network_error" } := by
    intro h
    simp [handleNetworkError, h]
  have hfalse :
      (includes (thrownMessage e) "fetch" || includes (thrownMessage e) "network") = false →
      handleNetworkError e = { reply := "", error := some "unknown_error" } := by
    intro h
    simp [handleNetworkError, h]
  refine ⟨⟨?_, fun hinf => htrue (hcond.mpr hinf)⟩, ?_, by decide⟩
  · intro hresp
    cases hb : includes (thrownMessage e) "fetch" || includes (thrownMessage e) "network" with
    | true => exact hcond.mp hb
    | false =>
      rw [hfalse hb] at hresp
      simp at hresp
  · intro hn
    apply hfalse
    cases hb : includes (thrownMessage e) "fetch" || includes (thrownMessage e) "network" with
    | false => rfl
    | true => exact absurd (hcond.mp hb) hn

/-- Witness for C5: `"Failed to fetch"` contains `"fetch"`, so the
classifier returns `network_error`. -/
theorem claim_C5_witness :
    handleNetworkError (JsThrown.error "Failed to fetch") =
      { reply := "", error := some "network_error" } :=
  (claim_C5_network_classifier (JsThrown.error "Failed to fetch")).1.mpr (Or.inl (by decide))

/-- Claim C6: `escalate` succeeds exactly on a 2xx response (with no error
field); on a non-2xx response it returns `{success:false}` carrying only
the Error Classifier's category (the diagnostic code is discarded — the
result shape has no code field); on a transport failure it carries the
network classifier's category. -/
theorem claim_C6_escalate (result : FetchResult) :
    ((escalate result).success = true ↔
      ∃ r, result = FetchResult.response r ∧ responseOk r = true) ∧
    (∀ r, result = FetchResult.response r → responseOk r = true →
      escalate result = { success := true, error := none }) ∧
    (∀ r, result = FetchResult.response r → responseOk r = false →
      escalate result = { success := false, error := (handleErrorResponse r).error }) ∧
    (∀ e, result = FetchResult.thrown e →
      escalate result = { success := false, error := (handleNetworkError e).error }) := by
  refine ⟨⟨?_, ?_⟩, ?_, ?_, ?_⟩
  · intro hs
    cases result with
    | thrown e => simp [escalate] at hs
    | response r =>
      refine ⟨r, rfl, ?_⟩
      by_cases hok : responseOk r
      · exact hok
      · simp [escalate, hok] at hs
  · rintro ⟨r, rfl, hok⟩
    simp [escalate, hok]
  · rintro r rfl hok
    simp [escalate, hok]
  · rintro r rfl hok
    simp [escalate, hok]
  · rintro e rfl
    rfl

/-- Witness for C6 at a concrete 503 response: only the category survives. -/
theorem claim_C6_witness :
    escalate (FetchResult.response { status := 503, body := none }) =
      { success := false,
        error := (handleErrorResponse { status := 503, body := none }).error } :=
  (claim_C6_escalate (FetchResult.response { status := 503, body := none })).2.2.1
    { status := 503, body := none } rfl (by decide)

/-- Claim C7: `checkHealth` has `ok = true` exactly on a 2xx response (with
error absent); a non-2xx response with status `s` yields
`{ok:false, error:"HTTP " ++ s}` without the category classifier; a thrown
`Error` yields its message, any other thrown value the literal
`"Network error"`. -/
theorem claim_C7_health_check (result : FetchResult) :
    ((checkHealth result).ok = true ↔
      ∃ r, result = FetchResult.response r ∧ responseOk r = true) ∧
    (∀ r, result = FetchResult.response r → responseOk r = true →
      checkHealth result = { ok := true, error := none }) ∧
    (∀ r, result = FetchResult.response r → responseOk r = false →
      checkHealth result = { ok := false, error := some ("HTTP " ++ toString r.status) }) ∧
    (∀ m, result = FetchResult.thrown (JsThrown.error m) →
      checkHealth result = { ok := false, error := some m }) ∧
    (result = FetchResult.thrown JsThrown.other →
      checkHealth result = { ok := false, error := some "Network error" }) := by
  refine ⟨⟨?_, ?_⟩, ?_, ?_, ?_, ?_⟩
  · intro hs
    cases result with
    | thrown e => simp [checkHealth] at hs
    | response r => exact ⟨r, rfl, by simpa [checkHealth] using hs⟩
  · rintro ⟨r, rfl, hok⟩
    simp [checkHealth, hok]
  · rintro r rfl hok
    simp [checkHealth, hok]
  · rintro r rfl hok
    simp [checkHealth, hok]
  · rintro m rfl
    rfl
  · rintro rfl
    rfl

/-- Witness for C7 at a concrete 404 response. -/
theorem claim_C7_witness :
    checkHealth (FetchResult.response { status := 404, body := none }) =
      { ok := false, error := some ("HTTP " ++ toString (404 : Nat)) } :=
  (claim_C7_health_check (FetchResult.response { status := 404, body := none })).2.2.1
    { status := 404, body := none } rfl (by decide)

/-- Counterexample to claim C8 as stated: the user message
`"Parlami in inglese"` contains neither the standalone word `"english"` nor
`"italiano"`, yet the view flips the locale from `it` to `en` (the regex
also matches the variants `inglese` / `engl\w*` and `italian` / `ital\w*`). -/
theorem claim_C8_counterexample :
    ((wordsOf (toLowerCase "Parlami in inglese")).contains "english" = false) ∧
    ((wordsOf (toLowerCase "Parlami in inglese")).contains "italiano" = false) ∧
    localeAfterMessages Locale.it
      [{ role := Role.user, content := "Parlami in inglese" }] = Locale.en := by decide

/-- Claim C8 (amended): for a newly appended user message, the view flips
the locale to `en` when the lowercased message contains a standalone word
starting with `"engl"` or equal to `"inglese"`; otherwise flips it to `it`
when it contains a standalone word starting with `"ital"` (covering
`"italian"` and `"italiano"`); otherwise leaves the locale unchanged.  The
claim's original keywords `english` / `italiano` are instances of the two
patterns. -/
theorem claim_C8_locale_switch (locale : Locale) (messages : List Message)
    (lastMessage : Message) (hlast : messages.getLast? = some lastMessage)
    (hrole : lastMessage.role = Role.user) :
    ((∃ w ∈ wordsOf (toLowerCase lastMessage.content),
        "engl".toList <+: w.toList ∨ w = "inglese") →
      localeAfterMessages locale messages = Locale.en) ∧
    (¬ (∃ w ∈ wordsOf (toLowerCase lastMessage.content),
        "engl".toList <+: w.toList ∨ w = "inglese") →
      (∃ w ∈ wordsOf (toLowerCase lastMessage.content), "ital".toList <+: w.toList) →
      localeAfterMessages locale messages = Locale.it) ∧
    (¬ (∃ w ∈ wordsOf (toLowerCase lastMessage.content),
        "engl".toList <+: w.toList ∨ w = "inglese") →
      ¬ (∃ w ∈ wordsOf (toLowerCase lastMessage.content), "ital".toList <+: w.toList) →
      localeAfterMessages locale messages = locale) := by
  have hE : hasEnglishKeyword (toLowerCase lastMessage.content) = true ↔
      (∃ w ∈ wordsOf (toLowerCase lastMessage.content),
        "engl".toList <+: w.toList ∨ w = "inglese") := by
    simp [hasEnglishKeyword, List.any_eq_true, List.isPrefixOf_iff_prefix]
  have hI : hasItalianKeyword (toLowerCase lastMessage.content) = true ↔
      (∃ w ∈ wordsOf (toLowerCase lastMessage.content), "ital".toList <+: w.toList) := by
    simp [hasItalianKeyword, List.any_eq_true, List.isPrefixOf_iff_prefix]
  refine ⟨?_, ?_, ?_⟩
  · intro hex
    simp [localeAfterMessages, hlast, hrole, hE.mpr hex]
  · intro hnE hxI
    have hbE : hasEnglishKeyword (toLowerCase lastMessage.content) = false := by
      cases hb : hasEnglishKeyword (toLowerCase lastMessage.content) with
      | false => rfl
      | true => exact absurd (hE.mp hb) hnE
    simp [localeAfterMessages, hlast, hrole, hbE, hI.mpr hxI]
  · intro hnE hnI
    have hbE : hasEnglishKeyword (toLowerCase lastMessage.content) = false := by
      cases hb : hasEnglishKeyword (toLowerCase lastMessage.content) with
      | false => rfl
      | true => exact absurd (hE.mp hb) hnE
    have hbI : hasItalianKeyword (toLowerCase lastMessage.content) = false := by
      cases hb : hasItalianKeyword (toLowerCase lastMessage.content) with
      | false => rfl
      | true => exact absurd (hI.mp hb) hnI
    simp [localeAfterMessages, hlast, hrole, hbE, hbI]

/-- Witness for C8: a user message containing the standalone word
`"English"` (mixed case) flips the locale to `en`. -/
theorem claim_C8_witness :
    localeAfterMessages Locale.it
      [{ role := Role.user, content := "Switch to English please" }] = Locale.en :=
  (claim_C8_locale_switch Locale.it
    [{ role := Role.user, content := "Switch to English please" }]
    { role := Role.user, content := "Switch to English please" } (by rfl) (by rfl)).1
    (by decide)

/-- Claim C9: with no stored session id, the bootstrap invokes `start`
(which takes no prior session id), stores the fresh `session_id` under the
fixed key `SID_KEY` and appends the greeting reply; afterwards — and more
generally from any state whose storage holds a (truthy) session id agreeing
with the component state — a chat send reuses the stored identifier as the
request's `sessionId` and does not invoke `start` again. -/
theorem claim_C9_session_reuse (st0 st : ViewState) (backend backend2 b : StartResult)
    (now now2 n : Nat) (content c : String) (s : String)
    (hstore0 : getItem st0.localStorage SID_KEY = none)
    (hfresh : backend.session_id ≠ "")
    (hcontent : jsTrim content ≠ "")
    (hc : jsTrim c ≠ "")
    (hsid : getItem st.localStorage SID_KEY = some s) (hs : s ≠ "")
    (hstate : st.sessionId = none ∨ st.sessionId = some s) :
    ((sendMessage st b c n).startCalled = false ∧
      (∃ req, (sendMessage st b c n).request = some req ∧ req.sessionId = some s)) ∧
    (ensureSidAndGreeting st0 backend now).startCalled = true ∧
    getItem (ensureSidAndGreeting st0 backend now).state.localStorage SID_KEY =
      some backend.session_id ∧
    (backend.reply ≠ "" →
      (ensureSidAndGreeting st0 backend now).state.messages =
        st0.messages ++
          [{ role := Role.assistant, content := backend.reply, timestamp := some now }]) ∧
    (sendMessage (ensureSidAndGreeting st0 backend now).state backend2 content now2).startCalled
      = false ∧
    (∃ req,
      (sendMessage (ensureSidAndGreeting st0 backend now).state backend2 content now2).request
        = some req ∧ req.sessionId = some backend.session_id) := by
  have hreuse : jsOrS st.sessionId (getItem st.localStorage SID_KEY) = some s := by
    rcases hstate with hnone | hsome
    · simp [jsOrS, jsTruthy, hnone, hsid]
    · simp [jsOrS, jsTruthy, hsome, hs]
  have hboot : ensureSidAndGreeting st0 backend now =
      { startCalled := true
        state := { st0 with
          localStorage := setItem st0.localStorage SID_KEY backend.session_id
          messages :=
            if backend.reply != "" then
              st0.messages ++
                [{ role := Role.assistant, content := backend.reply, timestamp := some now }]
            else st0.messages
          sessionId := some backend.session_id } } := by
    simp [ensureSidAndGreeting, hstore0, jsTruthy, start]
  have hstored : getItem (setItem st0.localStorage SID_KEY backend.session_id) SID_KEY =
      some backend.session_id := by
    simp [getItem, setItem, List.lookup]
  have hafter : jsOrS (ensureSidAndGreeting st0 backend now).state.sessionId
      (getItem (ensureSidAndGreeting st0 backend now).state.localStorage SID_KEY) =
      some backend.session_id := by
    rw [hboot]
    simp [jsOrS, jsTruthy, hfresh]
  refine ⟨?_, ?_, ?_, ?_, ?_, ?_⟩
  · obtain ⟨hcall, hreq⟩ := sendMessage_with_sid st b c n s hc hreuse hs
    exact ⟨hcall, ⟨_, hreq, rfl⟩⟩
  · rw [hboot]
  · rw [hboot]; exact hstored
  · intro hr
    rw [hboot]
    simp [hr]
  · exact (sendMessage_with_sid _ backend2 content now2 _ hcontent hafter hfresh).1
  · obtain ⟨hcall, hreq⟩ :=
      sendMessage_with_sid _ backend2 content now2 _ hcontent hafter hfresh
    exact ⟨_, hreq, rfl⟩

/-- Witness for C9 at concrete states: a fresh bootstrap followed by a send,
and a send from a state with a stored id. -/
theorem claim_C9_witness :
    ((sendMessage { localStorage := [(SID_KEY, "sess-9")] } { session_id := "x", reply := "" }
        "ciao" 5).startCalled = false ∧
      (∃ req, (sendMessage { localStorage := [(SID_KEY, "sess-9")] }
          { session_id := "x", reply := "" } "ciao" 5).request = some req ∧
        req.sessionId = some "sess-9")) ∧
    (ensureSidAndGreeting { localStorage := [] } { session_id := "fresh-1", reply := "Hi!" }
      1).startCalled = true ∧
    getItem (ensureSidAndGreeting { localStorage := [] }
      { session_id := "fresh-1", reply := "Hi!" } 1).state.localStorage SID_KEY =
      some "fresh-1" ∧
    (({ session_id := "fresh-1", reply := "Hi!" } : StartResult).reply ≠ "" →
      (ensureSidAndGreeting { localStorage := [] }
        { session_id := "fresh-1", reply := "Hi!" } 1).state.messages =
        ({ localStorage := [] } : ViewState).messages ++
          [{ role := Role.assistant, content := "Hi!", timestamp := some 1 }]) ∧
    (sendMessage (ensureSidAndGreeting { localStorage := [] }
        { session_id := "fresh-1", reply := "Hi!" } 1).state
      { session_id := "fresh-2", reply := "" } "hello" 2).startCalled = false ∧
    (∃ req, (sendMessage (ensureSidAndGreeting { localStorage := [] }
          { session_id := "fresh-1", reply := "Hi!" } 1).state
        { session_id := "fresh-2", reply := "" } "hello" 2).request = some req ∧
      req.sessionId = some "fresh-1") :=
  claim_C9_session_reuse { localStorage := [] } { localStorage := [(SID_KEY, "sess-9")] }
    { session_id := "fresh-1", reply := "Hi!" } { session_id := "fresh-2", reply := "" }
    { session_id := "x", reply := "" } 1 2 5 "hello" "ciao" "sess-9"
    (by rfl) (by decide) (by decide) (by decide) (by rfl) (by decide) (Or.inl rfl)

/-- Counterexample to claim C10 as stated: `t` is not string-valued for
every key — at the key `"quickReplies"` it returns the table's string
array, not a string. -/
theorem claim_C10_counterexample :
    (t Locale.en "quickReplies").isStr = false ∧
    t Locale.en "quickReplies" =
      JsVal.arr ["Start a new business", "Check obligations", "Parla in Italiano"] := by
  constructor <;> rfl

/-- Claim C10 (amended): the lookup `t` is total and never yields
`undefined`; for a dot-free key it resolves through the static translation
table — a missing key falls back to the key itself, a (non-empty) string
entry yields that string, and the `quickReplies`-style array entry yields
the array (rather than a string). -/
theorem claim_C10_lookup_total (locale : Locale) (key : String)
    (hkey : splitKey key = [key]) :
    (∀ k : String, t locale k ≠ JsVal.undef) ∧
    ((translations locale).lookup key = none → t locale key = JsVal.str key) ∧
    (∀ s, (translations locale).lookup key = some (JsVal.str s) → s ≠ "" →
      t locale key = JsVal.str s) ∧
    (∀ xs, (translations locale).lookup key = some (JsVal.arr xs) →
      t locale key = JsVal.arr xs) := by
  refine ⟨?_, ?_, ?_, ?_⟩
  · intro k
    simp only [t]
    exact jsOrVal_ne_undef _ _
  · intro hmiss
    simp [t, hkey, access, hmiss, jsOrVal]
  · intro s hfound hs
    simp [t, hkey, access, hfound, jsOrVal, hs]
  · intro xs hfound
    simp [t, hkey, access, hfound, jsOrVal]

/-- Witness for C10 at the `greeting` key of the Italian table. -/
theorem claim_C10_witness :
    t Locale.it "greeting" = JsVal.str
      "Ciao! Sono Ilaria, la tua assistente per la compliance aziendale. Come posso aiutarti oggi?" :=
  (claim_C10_lookup_total Locale.it "greeting" (by rfl)).2.2.1 _ (by rfl) (by decide)

end IlariaConnect
